import Mathlib

/-!
Shallow embedding of `src/checkpointsync.cpp` (synchronized checkpoint
system). Block hashes are modelled as `Nat`, with `0` playing the role of
the all-zero `uint256()` null sentinel. A `CBlockIndex` entry carries its
own hash, its height field and its parent pointer (`root` models a null
`pprev`). External collaborators (block index map, active chain, txdb,
connection manager, crypto) are gathered in a `World` record; the
process-wide mutable globals of the source form `CheckpointState`.
-/

/-- Mirror of the C++ `CBlockIndex` as used by checkpointsync.cpp: a block
hash, a stored height and a parent pointer; `root` models `pprev == nullptr`. -/
inductive CBlockIndex where
  | root (hashVal nHeightVal : Nat)
  | node (hashVal nHeightVal : Nat) (prev : CBlockIndex)
deriving DecidableEq, Repr

def CBlockIndex.hash : CBlockIndex → Nat
  | .root h _ => h
  | .node h _ _ => h

def CBlockIndex.nHeight : CBlockIndex → Nat
  | .root _ ht => ht
  | .node _ ht _ => ht

def CBlockIndex.pprev : CBlockIndex → Option CBlockIndex
  | .root _ _ => none
  | .node _ _ q => some q

/-- The ancestry loop of the source (`while (pindex->nHeight > t) if
(!(pindex = pindex->pprev)) return error(...)`): walk parent pointers while
the stored height exceeds `t`; `none` models the null-`pprev` error path. -/
def walkTo (t : Nat) : CBlockIndex → Option CBlockIndex
  | .root h ht => if ht > t then none else some (.root h ht)
  | .node h ht q => if ht > t then walkTo t q else some (.node h ht q)

/-- Spec-level ancestor lookup: the ancestor whose stored height is exactly
`t`, found by following parent pointers. -/
def ancAt : CBlockIndex → Nat → Option CBlockIndex
  | .root h ht, t => if ht = t then some (.root h ht) else none
  | .node h ht q, t => if ht = t then some (.node h ht q) else ancAt q t

/-- Structural sanity of a parent-linked entry: heights decrease by exactly
one along parent pointers and the parentless block has height 0. -/
def wellFormedB : CBlockIndex → Bool
  | .root _ ht => ht == 0
  | .node _ ht q => (ht == q.nHeight + 1) && wellFormedB q

/-- The loop of `AutoSelectSyncCheckpoint`: starting from the tip, step to
the parent while a parent exists and `nHeight + depth > tipHeight`. -/
def autoSelectWalk (tipHeight d : Nat) : CBlockIndex → CBlockIndex
  | .root h ht => .root h ht
  | .node h ht q => if ht + d > tipHeight then autoSelectWalk tipHeight d q else .node h ht q

/-- Association-list lookup modelling `::BlockIndex()` (hash → entry). -/
def bLookup (idx : List (Nat × CBlockIndex)) (h : Nat) : Option CBlockIndex :=
  match idx with
  | [] => none
  | (k, v) :: rest => if k = h then some v else bLookup rest h

/-- Mirror of `CSyncCheckpoint` after signature verification: the unsigned
fields actually consulted by the state machine. -/
structure CSyncCheckpoint where
  nVersion : Nat
  hashCheckpoint : Nat
deriving DecidableEq, Repr

/-- Mirror of `CSyncCheckpoint::SetNull()`: version 1, null checkpoint hash. -/
def nullSyncCheckpoint : CSyncCheckpoint := ⟨1, 0⟩

def CSyncCheckpoint.IsNull (m : CSyncCheckpoint) : Bool := m.hashCheckpoint == 0

/-- The process-wide mutable globals of checkpointsync.cpp. -/
structure CheckpointState where
  hashSyncCheckpoint : Nat
  hashPendingCheckpoint : Nat
  checkpointMessage : CSyncCheckpoint
  checkpointMessagePending : CSyncCheckpoint
  strMasterPrivKey : String
deriving DecidableEq, Repr

/-- External collaborators: block index, active chain (hash at each height,
plus the tip entry), txdb write outcomes, persisted master pubkey, network
availability, configuration and crypto outcomes. -/
structure World where
  blockIndex : List (Nat × CBlockIndex)
  chainHashes : List Nat
  chainTip : Option CBlockIndex
  dbWriteCheckpointOk : Nat → Bool
  dbPubKey : Option String
  dbWritePubKeyOk : Bool
  checkSigOk : CSyncCheckpoint → Bool
  connmanPresent : Bool
  nodeCount : Nat
  checkpointPubKey : String
  hashGenesisBlock : Nat
  keyValid : String → Bool
  signOk : Bool
  checkpointDepth : Nat

/-- Mirror of `::ChainActive().Contains(pindex)`: the chain's entry at the block's
height is that very block. -/
def chainContains (w : World) (p : CBlockIndex) : Bool :=
  match w.chainHashes.get? p.nHeight with
  | some h => h == p.hash
  | none => false

/-- Distinct return paths of `ValidateSyncCheckpoint`, one constructor per
`return` statement of the source (the C++ collapses all but `acceptNew`
to `false`, distinguishable only by the error text). -/
inductive VResult where
  | missingCurrent
  | missingRecv
  | corrupt1
  | conflicting
  | ignoreOlder
  | corrupt2
  | notDescendant
  | acceptNew
deriving DecidableEq, Repr

/-- The boolean the C++ caller sees: only `acceptNew` (line 110's
`return true`) is `true`. -/
def VResult.toBool : VResult → Bool
  | .acceptNew => true
  | _ => false

/-- Mirror of `ValidateSyncCheckpoint` (checkpointsync.cpp:65-111). -/
def ValidateSyncCheckpoint (w : World) (st : CheckpointState) (hashCheckpoint : Nat) :
    VResult :=
  match bLookup w.blockIndex st.hashSyncCheckpoint with
  | none => .missingCurrent
  | some pindexSyncCheckpoint =>
    match bLookup w.blockIndex hashCheckpoint with
    | none => .missingRecv
    | some pindexCheckpointRecv =>
      if pindexCheckpointRecv.nHeight ≤ pindexSyncCheckpoint.nHeight then
        match walkTo pindexCheckpointRecv.nHeight pindexSyncCheckpoint with
        | none => .corrupt1
        | some pindex =>
          if pindex.hash = hashCheckpoint then .ignoreOlder else .conflicting
      else
        match walkTo pindexSyncCheckpoint.nHeight pindexCheckpointRecv with
        | none => .corrupt2
        | some pindex =>
          if pindex.hash = st.hashSyncCheckpoint then .acceptNew else .notDescendant

/-- Mirror of `WriteSyncCheckpoint` (checkpointsync.cpp:113-121): on txdb
write failure return the error with no in-memory update; otherwise flush and
set `hashSyncCheckpoint`. -/
def WriteSyncCheckpoint (w : World) (st : CheckpointState) (hashCheckpoint : Nat) :
    Bool × CheckpointState :=
  if w.dbWriteCheckpointOk hashCheckpoint then
    (true, { st with hashSyncCheckpoint := hashCheckpoint })
  else
    (false, st)

/-- Mirror of `AcceptPendingSyncCheckpoint` (checkpointsync.cpp:123-158). -/
def AcceptPendingSyncCheckpoint (w : World) (st : CheckpointState) :
    Bool × CheckpointState :=
  if st.hashPendingCheckpoint = 0 then (false, st)
  else
    match bLookup w.blockIndex st.hashPendingCheckpoint with
    | none => (false, st)
    | some p =>
      if (ValidateSyncCheckpoint w st st.hashPendingCheckpoint).toBool = false then
        (false, { st with hashPendingCheckpoint := 0,
                          checkpointMessagePending := nullSyncCheckpoint })
      else if chainContains w p = false then (false, st)
      else
        match WriteSyncCheckpoint w st st.hashPendingCheckpoint with
        | (false, st2) => (false, st2)
        | (true, st2) =>
          (true, { st2 with hashPendingCheckpoint := 0,
                            checkpointMessage := st.checkpointMessagePending,
                            checkpointMessagePending := nullSyncCheckpoint })

/-- Mirror of `AutoSelectSyncCheckpoint` (checkpointsync.cpp:161-168). -/
def AutoSelectSyncCheckpoint (w : World) : Option Nat :=
  w.chainTip.map fun tip => (autoSelectWalk tip.nHeight w.checkpointDepth tip).hash

/-- The final two checks of `CheckSyncCheckpoint` (checkpointsync.cpp:199-203). -/
def checkSyncTail (w : World) (st : CheckpointState) (hashBlock nHeight : Nat)
    (pindexSync : CBlockIndex) : Option Bool :=
  if nHeight = pindexSync.nHeight ∧ hashBlock ≠ st.hashSyncCheckpoint then some false
  else if nHeight < pindexSync.nHeight ∧ bLookup w.blockIndex hashBlock = none then
    some false
  else some true

/-- Mirror of `CheckSyncCheckpoint` (checkpointsync.cpp:171-204); `none`
models the `assert` on a missing sync-checkpoint index entry (and a null
chain tip, which the C++ would dereference). -/
def CheckSyncCheckpoint (w : World) (st : CheckpointState) (hashBlock nHeight : Nat) :
    Option Bool :=
  if nHeight = 0 then some true
  else if st.hashSyncCheckpoint = 0 then some true
  else
    match bLookup w.blockIndex st.hashSyncCheckpoint with
    | none => none
    | some pindexSync =>
      if nHeight > pindexSync.nHeight then
        match w.chainTip with
        | none => none
        | some tip =>
          match walkTo pindexSync.nHeight tip with
          | none => some false
          | some pindex =>
            if pindex.nHeight < pindexSync.nHeight ∨ pindex.hash ≠ st.hashSyncCheckpoint
            then some false
            else checkSyncTail w st hashBlock nHeight pindexSync
      else checkSyncTail w st hashBlock nHeight pindexSync

/-- Mirror of `ResetSyncCheckpoint` (checkpointsync.cpp:207-215). -/
def ResetSyncCheckpoint (w : World) (st : CheckpointState) : Bool × CheckpointState :=
  WriteSyncCheckpoint w st w.hashGenesisBlock

/-- Mirror of `CheckCheckpointPubKey` (checkpointsync.cpp:218-234); the
returned `World` carries the persisted-pubkey update. -/
def CheckCheckpointPubKey (w : World) (st : CheckpointState) :
    Bool × World × CheckpointState :=
  let keyMatches :=
    match w.dbPubKey with
    | none => false
    | some k => k == w.checkpointPubKey
  if keyMatches then (true, w, st)
  else
    let rs := ResetSyncCheckpoint w st
    if rs.1 = false then (false, w, rs.2)
    else if w.dbWritePubKeyOk = false then (false, w, rs.2)
    else (true, { w with dbPubKey := some w.checkpointPubKey }, rs.2)

/-- Mirror of `CSyncCheckpoint::ProcessSyncCheckpoint` (checkpointsync.cpp:351-380). -/
def ProcessSyncCheckpoint (w : World) (st : CheckpointState) (m : CSyncCheckpoint) :
    Bool × CheckpointState :=
  if w.checkSigOk m = false then (false, st)
  else
    match bLookup w.blockIndex m.hashCheckpoint with
    | none =>
      (false, { st with hashPendingCheckpoint := m.hashCheckpoint,
                        checkpointMessagePending := m })
    | some p =>
      if chainContains w p = false then
        (false, { st with hashPendingCheckpoint := m.hashCheckpoint,
                          checkpointMessagePending := m })
      else if (ValidateSyncCheckpoint w st m.hashCheckpoint).toBool = false then
        (false, st)
      else
        match WriteSyncCheckpoint w st m.hashCheckpoint with
        | (false, st2) => (false, st2)
        | (true, st2) =>
          (true, { st2 with checkpointMessage := m,
                            hashPendingCheckpoint := 0,
                            checkpointMessagePending := nullSyncCheckpoint })

/-- Observable side effects of `SendSyncCheckpoint` beyond state mutation. -/
inductive SendAction where
  | signed
  | processed
  | relayed
deriving DecidableEq, Repr

/-- Mirror of `SendSyncCheckpoint` (checkpointsync.cpp:246-285); the action
list records whether the master key signed, the message was processed, and
the checkpoint was relayed. -/
def SendSyncCheckpoint (w : World) (st : CheckpointState) (hashCheckpoint : Nat) :
    Bool × CheckpointState × List SendAction :=
  if w.connmanPresent = false then (true, st, [])
  else if w.nodeCount = 0 then (true, st, [])
  else if hashCheckpoint = 0 then (true, st, [])
  else if st.strMasterPrivKey = "" then (false, st, [])
  else if w.keyValid st.strMasterPrivKey = false then (false, st, [])
  else if w.signOk = false then (false, st, [.signed])
  else
    match ProcessSyncCheckpoint w st ⟨1, hashCheckpoint⟩ with
    | (false, st2) => (false, st2, [.signed, .processed])
    | (true, st2) => (true, st2, [.signed, .processed, .relayed])

/-! Concrete fixtures used by witnesses and counterexamples. `cG` is the
genesis block, `cA1 ← cA2` its main-chain descendants, `cX1` a fork block at
height 1 and `cB1` a reorg block at height 1. -/

def cG : CBlockIndex := .root 1 0

def cA1 : CBlockIndex := .node 2 1 cG

def cA2 : CBlockIndex := .node 3 2 cA1

def cX1 : CBlockIndex := .node 4 1 cG

def cB1 : CBlockIndex := .node 7 1 cG

def baseWorld : World :=
  { blockIndex := [(1, cG), (2, cA1), (3, cA2), (4, cX1)]
    chainHashes := [1, 2, 3]
    chainTip := some cA2
    dbWriteCheckpointOk := fun _ => true
    dbPubKey := none
    dbWritePubKeyOk := true
    checkSigOk := fun _ => true
    connmanPresent := true
    nodeCount := 1
    checkpointPubKey := "P2"
    hashGenesisBlock := 1
    keyValid := fun _ => true
    signOk := true
    checkpointDepth := 0 }

def baseState : CheckpointState := ⟨3, 0, nullSyncCheckpoint, nullSyncCheckpoint, ""⟩

/-! Helper lemmas. -/

theorem nHeight_node (h ht : Nat) (q : CBlockIndex) :
    (CBlockIndex.node h ht q).nHeight = ht := rfl

theorem nHeight_root (h ht : Nat) : (CBlockIndex.root h ht).nHeight = ht := rfl

/-- On a structurally sane chain the source's `while (nHeight > t)` walk
computes exactly the ancestor whose height field is `t`. -/
theorem walkTo_eq_ancAt (p : CBlockIndex) (hw : wellFormedB p = true) :
    ∀ t, t ≤ p.nHeight → walkTo t p = ancAt p t := by
  induction p with
  | root h ht =>
    intro t hle
    simp only [wellFormedB, beq_iff_eq] at hw
    subst hw
    have ht0 : t = 0 := by rw [nHeight_root] at hle; omega
    subst ht0
    simp [walkTo, ancAt]
  | node h ht q ih =>
    intro t hle
    simp only [wellFormedB, Bool.and_eq_true, beq_iff_eq] at hw
    obtain ⟨hht, hwq⟩ := hw
    rw [nHeight_node] at hle
    rcases eq_or_lt_of_le hle with heq | hlt
    · subst heq
      simp [walkTo, ancAt]
    · have ht2 : t ≤ q.nHeight := by omega
      rw [walkTo, ancAt, if_pos hlt, if_neg (by omega : ¬ ht = t)]
      exact ih hwq t ht2
  

theorem toBool_eq_true_iff (v : VResult) : v.toBool = true ↔ v = .acceptNew := by
  cases v <;> simp [VResult.toBool]

theorem toBool_eq_false_of_ne (v : VResult) (h : v ≠ .acceptNew) : v.toBool = false := by
  cases v <;> first | rfl | exact absurd rfl h

/-! Branch characterizations of `ProcessSyncCheckpoint`. -/

theorem process_sig_fail (w : World) (st : CheckpointState) (m : CSyncCheckpoint)
    (h : w.checkSigOk m = false) : ProcessSyncCheckpoint w st m = (false, st) := by
  simp [ProcessSyncCheckpoint, h]

theorem process_defer_unknown (w : World) (st : CheckpointState) (m : CSyncCheckpoint)
    (hsig : w.checkSigOk m = true)
    (hb : bLookup w.blockIndex m.hashCheckpoint = none) :
    ProcessSyncCheckpoint w st m =
      (false, { st with hashPendingCheckpoint := m.hashCheckpoint,
                        checkpointMessagePending := m }) := by
  simp [ProcessSyncCheckpoint, hsig, hb]

theorem process_defer_offchain (w : World) (st : CheckpointState) (m : CSyncCheckpoint)
    (p : CBlockIndex) (hsig : w.checkSigOk m = true)
    (hb : bLookup w.blockIndex m.hashCheckpoint = some p)
    (hcont : chainContains w p = false) :
    ProcessSyncCheckpoint w st m =
      (false, { st with hashPendingCheckpoint := m.hashCheckpoint,
                        checkpointMessagePending := m }) := by
  simp [ProcessSyncCheckpoint, hsig, hb, hcont]

theorem process_validate_notAccept (w : World) (st : CheckpointState)
    (m : CSyncCheckpoint) (p : CBlockIndex) (hsig : w.checkSigOk m = true)
    (hb : bLookup w.blockIndex m.hashCheckpoint = some p)
    (hcont : chainContains w p = true)
    (hv : (ValidateSyncCheckpoint w st m.hashCheckpoint).toBool = false) :
    ProcessSyncCheckpoint w st m = (false, st) := by
  simp [ProcessSyncCheckpoint, hsig, hb, hcont, hv]

theorem process_write_fail (w : World) (st : CheckpointState) (m : CSyncCheckpoint)
    (p : CBlockIndex) (hsig : w.checkSigOk m = true)
    (hb : bLookup w.blockIndex m.hashCheckpoint = some p)
    (hcont : chainContains w p = true)
    (hv : ValidateSyncCheckpoint w st m.hashCheckpoint = .acceptNew)
    (hdb : w.dbWriteCheckpointOk m.hashCheckpoint = false) :
    ProcessSyncCheckpoint w st m = (false, st) := by
  simp [ProcessSyncCheckpoint, WriteSyncCheckpoint, hsig, hb, hcont, hv, hdb,
        VResult.toBool]

theorem process_accept (w : World) (st : CheckpointState) (m : CSyncCheckpoint)
    (p : CBlockIndex) (hsig : w.checkSigOk m = true)
    (hb : bLookup w.blockIndex m.hashCheckpoint = some p)
    (hcont : chainContains w p = true)
    (hv : ValidateSyncCheckpoint w st m.hashCheckpoint = .acceptNew)
    (hdb : w.dbWriteCheckpointOk m.hashCheckpoint = true) :
    ProcessSyncCheckpoint w st m =
      (true, { st with hashSyncCheckpoint := m.hashCheckpoint,
                       checkpointMessage := m,
                       hashPendingCheckpoint := 0,
                       checkpointMessagePending := nullSyncCheckpoint }) := by
  simp [ProcessSyncCheckpoint, WriteSyncCheckpoint, hsig, hb, hcont, hv, hdb,
        VResult.toBool]

/-! Branch characterizations of `AcceptPendingSyncCheckpoint`. -/

theorem accept_pending_none (w : World) (st : CheckpointState)
    (h : st.hashPendingCheckpoint = 0) :
    AcceptPendingSyncCheckpoint w st = (false, st) := by
  simp [AcceptPendingSyncCheckpoint, h]

theorem accept_pending_unknown (w : World) (st : CheckpointState)
    (hp : st.hashPendingCheckpoint ≠ 0)
    (hb : bLookup w.blockIndex st.hashPendingCheckpoint = none) :
    AcceptPendingSyncCheckpoint w st = (false, st) := by
  simp [AcceptPendingSyncCheckpoint, hp, hb]

theorem accept_pending_validate_fail (w : World) (st : CheckpointState)
    (p : CBlockIndex) (hp : st.hashPendingCheckpoint ≠ 0)
    (hb : bLookup w.blockIndex st.hashPendingCheckpoint = some p)
    (hv : (ValidateSyncCheckpoint w st st.hashPendingCheckpoint).toBool = false) :
    AcceptPendingSyncCheckpoint w st =
      (false, { st with hashPendingCheckpoint := 0,
                        checkpointMessagePending := nullSyncCheckpoint }) := by
  simp [AcceptPendingSyncCheckpoint, hp, hb, hv]

theorem accept_pending_offchain (w : World) (st : CheckpointState)
    (p : CBlockIndex) (hp : st.hashPendingCheckpoint ≠ 0)
    (hb : bLookup w.blockIndex st.hashPendingCheckpoint = some p)
    (hv : ValidateSyncCheckpoint w st st.hashPendingCheckpoint = .acceptNew)
    (hcont : chainContains w p = false) :
    AcceptPendingSyncCheckpoint w st = (false, st) := by
  simp [AcceptPendingSyncCheckpoint, hp, hb, hv, hcont, VResult.toBool]

theorem accept_pending_write_fail (w : World) (st : CheckpointState)
    (p : CBlockIndex) (hp : st.hashPendingCheckpoint ≠ 0)
    (hb : bLookup w.blockIndex st.hashPendingCheckpoint = some p)
    (hv : ValidateSyncCheckpoint w st st.hashPendingCheckpoint = .acceptNew)
    (hcont : chainContains w p = true)
    (hdb : w.dbWriteCheckpointOk st.hashPendingCheckpoint = false) :
    AcceptPendingSyncCheckpoint w st = (false, st) := by
  simp [AcceptPendingSyncCheckpoint, WriteSyncCheckpoint, hp, hb, hv, hcont, hdb,
        VResult.toBool]

theorem accept_pending_accept (w : World) (st : CheckpointState)
    (p : CBlockIndex) (hp : st.hashPendingCheckpoint ≠ 0)
    (hb : bLookup w.blockIndex st.hashPendingCheckpoint = some p)
    (hv : ValidateSyncCheckpoint w st st.hashPendingCheckpoint = .acceptNew)
    (hcont : chainContains w p = true)
    (hdb : w.dbWriteCheckpointOk st.hashPendingCheckpoint = true) :
    AcceptPendingSyncCheckpoint w st =
      (true, { st with hashSyncCheckpoint := st.hashPendingCheckpoint,
                       hashPendingCheckpoint := 0,
                       checkpointMessage := st.checkpointMessagePending,
                       checkpointMessagePending := nullSyncCheckpoint }) := by
  simp [AcceptPendingSyncCheckpoint, WriteSyncCheckpoint, hp, hb, hv, hcont, hdb,
        VResult.toBool]

/-- Validation answers `acceptNew` only when the candidate's indexed height
strictly exceeds the active checkpoint's indexed height. -/
theorem validate_acceptNew_lt (w : World) (st : CheckpointState) (c : Nat)
    (pa pc : CBlockIndex)
    (ha : bLookup w.blockIndex st.hashSyncCheckpoint = some pa)
    (hc : bLookup w.blockIndex c = some pc)
    (hv : ValidateSyncCheckpoint w st c = .acceptNew) :
    pa.nHeight < pc.nHeight := by
  by_cases hle : pc.nHeight ≤ pa.nHeight
  · exfalso
    simp only [ValidateSyncCheckpoint, ha, hc, if_pos hle] at hv
    split at hv
    · exact absurd hv (by decide)
    · split at hv
      · exact absurd hv (by decide)
      · exact absurd hv (by decide)
  · omega

/-- If processing a message changed the active checkpoint hash, the change
installed the message's target and validation had answered `acceptNew`. -/
theorem process_change (w : World) (st : CheckpointState) (m : CSyncCheckpoint)
    (hch : (ProcessSyncCheckpoint w st m).2.hashSyncCheckpoint ≠ st.hashSyncCheckpoint) :
    (ProcessSyncCheckpoint w st m).2.hashSyncCheckpoint = m.hashCheckpoint ∧
      ValidateSyncCheckpoint w st m.hashCheckpoint = .acceptNew := by
  by_cases hsig : w.checkSigOk m = true
  · rcases hb : bLookup w.blockIndex m.hashCheckpoint with _ | p
    · rw [process_defer_unknown w st m hsig hb] at hch
      simp at hch
    · by_cases hcont : chainContains w p = true
      · by_cases hval : ValidateSyncCheckpoint w st m.hashCheckpoint = .acceptNew
        · by_cases hdb : w.dbWriteCheckpointOk m.hashCheckpoint = true
          · rw [process_accept w st m p hsig hb hcont hval hdb]
            exact ⟨rfl, hval⟩
          · rw [process_write_fail w st m p hsig hb hcont hval
                (Bool.eq_false_iff.mpr hdb)] at hch
            simp at hch
        · rw [process_validate_notAccept w st m p hsig hb hcont
              (toBool_eq_false_of_ne _ hval)] at hch
          simp at hch
      · rw [process_defer_offchain w st m p hsig hb (Bool.eq_false_iff.mpr hcont)] at hch
        simp at hch
  · rw [process_sig_fail w st m (Bool.eq_false_iff.mpr hsig)] at hch
    simp at hch

/-- If pending promotion changed the active checkpoint hash, the change
installed the pending hash and validation had answered `acceptNew`. -/
theorem accept_pending_change (w : World) (st : CheckpointState)
    (hch : (AcceptPendingSyncCheckpoint w st).2.hashSyncCheckpoint ≠ st.hashSyncCheckpoint) :
    (AcceptPendingSyncCheckpoint w st).2.hashSyncCheckpoint = st.hashPendingCheckpoint ∧
      ValidateSyncCheckpoint w st st.hashPendingCheckpoint = .acceptNew := by
  by_cases hp : st.hashPendingCheckpoint = 0
  · rw [accept_pending_none w st hp] at hch
    simp at hch
  · rcases hb : bLookup w.blockIndex st.hashPendingCheckpoint with _ | p
    · rw [accept_pending_unknown w st hp hb] at hch
      simp at hch
    · by_cases hval : ValidateSyncCheckpoint w st st.hashPendingCheckpoint = .acceptNew
      · by_cases hcont : chainContains w p = true
        · by_cases hdb : w.dbWriteCheckpointOk st.hashPendingCheckpoint = true
          · rw [accept_pending_accept w st p hp hb hval hcont hdb]
            exact ⟨rfl, hval⟩
          · rw [accept_pending_write_fail w st p hp hb hval hcont
                (Bool.eq_false_iff.mpr hdb)] at hch
            simp at hch
        · rw [accept_pending_offchain w st p hp hb hval
              (Bool.eq_false_iff.mpr hcont)] at hch
          simp at hch
      · rw [accept_pending_validate_fail w st p hp hb
            (toBool_eq_false_of_ne _ hval)] at hch
        simp at hch

/-- C1: for every candidate and active checkpoint that both resolve to
(well-formed) block-index entries, the consistency validator compares the
candidate's height against the active checkpoint's: at lower-or-equal height
it finds the active checkpoint's ancestor at the candidate's height,
answering ignore (`Ok(false)`) on a hash match, `ConflictingCheckpoint` on a
mismatch, `CorruptIndex` if the ancestor is missing; at strictly greater
height it finds the candidate's ancestor at the active height, answering
apply (`Ok(true)`) on a match with the active hash, `NotDescendant` on a
mismatch, `CorruptIndex` if missing. -/
theorem claim_c1_validator (w : World) (st : CheckpointState) (c : Nat)
    (pa pc : CBlockIndex)
    (ha : bLookup w.blockIndex st.hashSyncCheckpoint = some pa)
    (hc : bLookup w.blockIndex c = some pc)
    (wfa : wellFormedB pa = true) (wfc : wellFormedB pc = true) :
    ValidateSyncCheckpoint w st c =
      if pc.nHeight ≤ pa.nHeight then
        match ancAt pa pc.nHeight with
        | none => VResult.corrupt1
        | some q => if q.hash = c then VResult.ignoreOlder else VResult.conflicting
      else
        match ancAt pc pa.nHeight with
        | none => VResult.corrupt2
        | some q =>
          if q.hash = st.hashSyncCheckpoint then VResult.acceptNew
          else VResult.notDescendant := by
  by_cases hle : pc.nHeight ≤ pa.nHeight
  · rw [if_pos hle, ← walkTo_eq_ancAt pa wfa _ hle]
    simp [ValidateSyncCheckpoint, ha, hc, hle]
  · have hle2 : pa.nHeight ≤ pc.nHeight := le_of_not_le hle
    rw [if_neg hle, ← walkTo_eq_ancAt pc wfc _ hle2]
    simp [ValidateSyncCheckpoint, ha, hc, hle]

theorem claim_c1_validator_witness :
    ValidateSyncCheckpoint baseWorld baseState 2 = VResult.ignoreOlder :=
  (claim_c1_validator baseWorld baseState 2 cA2 cA1 (by decide) (by decide)
    (by decide) (by decide)).trans (by decide)

/-- C3: when the active checkpoint hash is mutated by successful acceptance
(message processing or pending promotion), the new hash's indexed height is
strictly greater than the previous active checkpoint's indexed height. -/
theorem claim_c3_monotonic :
    (∀ (w : World) (st : CheckpointState) (m : CSyncCheckpoint) (pa pc : CBlockIndex),
      bLookup w.blockIndex st.hashSyncCheckpoint = some pa →
      bLookup w.blockIndex (ProcessSyncCheckpoint w st m).2.hashSyncCheckpoint = some pc →
      (ProcessSyncCheckpoint w st m).2.hashSyncCheckpoint ≠ st.hashSyncCheckpoint →
      pa.nHeight < pc.nHeight) ∧
    (∀ (w : World) (st : CheckpointState) (pa pc : CBlockIndex),
      bLookup w.blockIndex st.hashSyncCheckpoint = some pa →
      bLookup w.blockIndex (AcceptPendingSyncCheckpoint w st).2.hashSyncCheckpoint = some pc →
      (AcceptPendingSyncCheckpoint w st).2.hashSyncCheckpoint ≠ st.hashSyncCheckpoint →
      pa.nHeight < pc.nHeight) := by
  constructor
  · intro w st m pa pc ha hc hch
    obtain ⟨heq, hval⟩ := process_change w st m hch
    rw [heq] at hc
    exact validate_acceptNew_lt w st m.hashCheckpoint pa pc ha hc hval
  · intro w st pa pc ha hc hch
    obtain ⟨heq, hval⟩ := accept_pending_change w st hch
    rw [heq] at hc
    exact validate_acceptNew_lt w st st.hashPendingCheckpoint pa pc ha hc hval

theorem claim_c3_monotonic_witness :
    cG.nHeight < cA2.nHeight ∧ cG.nHeight < cA2.nHeight :=
  ⟨claim_c3_monotonic.1 baseWorld ⟨1, 0, nullSyncCheckpoint, nullSyncCheckpoint, ""⟩
      ⟨1, 3⟩ cG cA2 (by decide) (by decide) (by decide),
   claim_c3_monotonic.2 baseWorld ⟨1, 3, nullSyncCheckpoint, ⟨1, 3⟩, ""⟩
      cG cA2 (by decide) (by decide) (by decide)⟩

/-! Additional fixtures: a post-reorganization view in which block 7 (`cB1`)
replaced block 2 (`cA1`) at height 1, and variants used by other claims. -/

def c4World1 : World :=
  { baseWorld with blockIndex := [(1, cG), (2, cA1)], chainHashes := [1, 2],
                   chainTip := some cA1 }

def c4World2 : World :=
  { baseWorld with blockIndex := [(1, cG), (2, cA1), (7, cB1)], chainHashes := [1, 7],
                   chainTip := some cB1 }

def c4State : CheckpointState := ⟨2, 0, nullSyncCheckpoint, nullSyncCheckpoint, ""⟩

def c4Msg : CSyncCheckpoint := ⟨1, 7⟩

def c5State : CheckpointState := ⟨3, 4, nullSyncCheckpoint, ⟨1, 4⟩, ""⟩

def noDbWorld : World := { baseWorld with dbWriteCheckpointOk := fun _ => false }

/-- C6: a signature-verified message whose target is indexed and on the
active chain but whose validation fails with `ConflictingCheckpoint` or
`NotDescendant` is rejected with no state change at all. -/
theorem claim_c6_reject_no_change (w : World) (st : CheckpointState)
    (m : CSyncCheckpoint) (p : CBlockIndex)
    (hsig : w.checkSigOk m = true)
    (hb : bLookup w.blockIndex m.hashCheckpoint = some p)
    (hcont : chainContains w p = true)
    (hv : ValidateSyncCheckpoint w st m.hashCheckpoint = .conflicting ∨
          ValidateSyncCheckpoint w st m.hashCheckpoint = .notDescendant) :
    ProcessSyncCheckpoint w st m = (false, st) := by
  apply process_validate_notAccept w st m p hsig hb hcont
  rcases hv with h | h <;> rw [h] <;> rfl

theorem claim_c6_reject_no_change_witness :
    ProcessSyncCheckpoint c4World2 c4State c4Msg = (false, c4State) :=
  claim_c6_reject_no_change c4World2 c4State c4Msg cB1 (by decide) (by decide)
    (by decide) (Or.inl (by decide))

/-- C7: when the durable checkpoint write fails, `WriteSyncCheckpoint`
returns the failure with the in-memory active hash unchanged, and a
message-processing call that reaches the write propagates the failure with
the whole checkpoint state unchanged. -/
theorem claim_c7_write_fail_no_change :
    (∀ (w : World) (st : CheckpointState) (h : Nat),
      w.dbWriteCheckpointOk h = false →
      WriteSyncCheckpoint w st h = (false, st)) ∧
    (∀ (w : World) (st : CheckpointState) (m : CSyncCheckpoint) (p : CBlockIndex),
      w.checkSigOk m = true →
      bLookup w.blockIndex m.hashCheckpoint = some p →
      chainContains w p = true →
      ValidateSyncCheckpoint w st m.hashCheckpoint = .acceptNew →
      w.dbWriteCheckpointOk m.hashCheckpoint = false →
      ProcessSyncCheckpoint w st m = (false, st)) := by
  constructor
  · intro w st h hdb
    simp [WriteSyncCheckpoint, hdb]
  · intro w st m p hsig hb hcont hv hdb
    exact process_write_fail w st m p hsig hb hcont hv hdb

theorem claim_c7_write_fail_no_change_witness :
    WriteSyncCheckpoint noDbWorld baseState 3 = (false, baseState) ∧
    ProcessSyncCheckpoint noDbWorld ⟨1, 0, nullSyncCheckpoint, nullSyncCheckpoint, ""⟩
      ⟨1, 3⟩ = (false, ⟨1, 0, nullSyncCheckpoint, nullSyncCheckpoint, ""⟩) :=
  ⟨claim_c7_write_fail_no_change.1 noDbWorld baseState 3 (by decide),
   claim_c7_write_fail_no_change.2 noDbWorld
     ⟨1, 0, nullSyncCheckpoint, nullSyncCheckpoint, ""⟩ ⟨1, 3⟩ cA2
     (by decide) (by decide) (by decide) (by decide) (by decide)⟩

/-- C10: when the connection manager is absent, no peers are connected, or
the requested hash is the null sentinel, `SendSyncCheckpoint` returns
success with no signing, no message processing, no relay, and the
checkpoint state untouched. -/
theorem claim_c10_send_noop (w : World) (st : CheckpointState) (h : Nat)
    (hc : w.connmanPresent = false ∨ w.nodeCount = 0 ∨ h = 0) :
    SendSyncCheckpoint w st h = (true, st, []) := by
  rcases hc with h1 | h2 | h3
  · simp [SendSyncCheckpoint, h1]
  · by_cases h1 : w.connmanPresent = false
    · simp [SendSyncCheckpoint, h1]
    · simp [SendSyncCheckpoint, h1, h2]
  · by_cases h1 : w.connmanPresent = false
    · simp [SendSyncCheckpoint, h1]
    · by_cases h2 : w.nodeCount = 0
      · simp [SendSyncCheckpoint, h1, h2]
      · simp [SendSyncCheckpoint, h1, h2, h3]

theorem claim_c10_send_noop_witness :
    SendSyncCheckpoint { baseWorld with connmanPresent := false } baseState 3 =
      (true, baseState, []) :=
  claim_c10_send_noop { baseWorld with connmanPresent := false } baseState 3
    (Or.inl (by decide))

/-- C2 fails on the code: block hash 4 (`cX1`, a fork block at height 1 that
neither equals the height-2 active checkpoint `cA2` nor lies on its
ancestry) is at height 1 ≤ 2 and known to the index, and the consensus gate
accepts it. -/
theorem claim_c2_counterexample :
    bLookup baseWorld.blockIndex baseState.hashSyncCheckpoint = some cA2 ∧
    bLookup baseWorld.blockIndex 4 = some cX1 ∧
    cX1.nHeight ≤ cA2.nHeight ∧
    (4 : Nat) ≠ baseState.hashSyncCheckpoint ∧
    ancAt cA2 cX1.nHeight ≠ some cX1 ∧
    CheckSyncCheckpoint baseWorld baseState 4 1 = some true := by decide

/-- C2 amended: the gate returns true for height 0 or a null active
checkpoint; when 0 < height ≤ checkpoint height (checkpoint resolving in
the index), it returns false exactly when the height equals the checkpoint
height with a differing hash, or the height is strictly lower and the hash
is unknown to the index — a known block strictly below the checkpoint
height passes with no ancestry check. -/
theorem claim_c2_gate (w : World) (st : CheckpointState) (b n : Nat)
    (pSync : CBlockIndex) :
    (n = 0 ∨ st.hashSyncCheckpoint = 0 → CheckSyncCheckpoint w st b n = some true) ∧
    (st.hashSyncCheckpoint ≠ 0 → n ≠ 0 →
      bLookup w.blockIndex st.hashSyncCheckpoint = some pSync →
      n ≤ pSync.nHeight →
      CheckSyncCheckpoint w st b n =
        some (decide ((n = pSync.nHeight → b = st.hashSyncCheckpoint) ∧
                      (n < pSync.nHeight → bLookup w.blockIndex b ≠ none)))) := by
  constructor
  · intro h
    rcases h with h0 | hnull
    · simp [CheckSyncCheckpoint, h0]
    · by_cases h0 : n = 0
      · simp [CheckSyncCheckpoint, h0]
      · simp [CheckSyncCheckpoint, h0, hnull]
  · intro hnull hn0 ha hle
    have hng : ¬ n > pSync.nHeight := by omega
    simp only [CheckSyncCheckpoint, hn0, hnull, ha, if_false, if_neg hng,
               ite_false]
    by_cases h1 : n = pSync.nHeight ∧ b ≠ st.hashSyncCheckpoint
    · rw [checkSyncTail, if_pos h1]
      have hP : ¬((n = pSync.nHeight → b = st.hashSyncCheckpoint) ∧
                  (n < pSync.nHeight → bLookup w.blockIndex b ≠ none)) := by
        tauto
      rw [decide_eq_false hP]
    · by_cases h2 : n < pSync.nHeight ∧ bLookup w.blockIndex b = none
      · rw [checkSyncTail, if_neg h1, if_pos h2]
        have hP : ¬((n = pSync.nHeight → b = st.hashSyncCheckpoint) ∧
                    (n < pSync.nHeight → bLookup w.blockIndex b ≠ none)) := by
          intro hcon
          exact (hcon.2 h2.1) h2.2
        rw [decide_eq_false hP]
      · rw [checkSyncTail, if_neg h1, if_neg h2]
        have hP : (n = pSync.nHeight → b = st.hashSyncCheckpoint) ∧
                  (n < pSync.nHeight → bLookup w.blockIndex b ≠ none) := by
          constructor
          · intro he
            by_contra hbne
            exact h1 ⟨he, hbne⟩
          · intro hlt hbn
            exact h2 ⟨hlt, hbn⟩
        rw [decide_eq_true hP]

theorem claim_c2_gate_witness :
    CheckSyncCheckpoint baseWorld baseState 9 0 = some true ∧
    CheckSyncCheckpoint baseWorld baseState 9 1 =
      some (decide ((1 = cA2.nHeight → (9 : Nat) = baseState.hashSyncCheckpoint) ∧
                    ((1 : Nat) < cA2.nHeight → bLookup baseWorld.blockIndex 9 ≠ none))) :=
  ⟨(claim_c2_gate baseWorld baseState 9 0 cA2).1 (Or.inl rfl),
   (claim_c2_gate baseWorld baseState 9 1 cA2).2 (by decide) (by decide) (by decide)
     (by decide)⟩

/-- C4 fails on the code: the verified message `c4Msg` targeting the then
unknown hash 7 is deferred (`pending := 7`); block 7 later connects via a
reorganization (`c4World2`: indexed and active-chain resident at height 1),
yet the next promotion call returns false and leaves the active checkpoint
at hash 2 — the pending checkpoint conflicts with the active one instead of
being accepted as the claim requires. -/
theorem claim_c4_counterexample :
    (ProcessSyncCheckpoint c4World1 c4State c4Msg).2.hashPendingCheckpoint = 7 ∧
    (ProcessSyncCheckpoint c4World1 c4State c4Msg).1 = false ∧
    bLookup c4World2.blockIndex 7 = some cB1 ∧
    chainContains c4World2 cB1 = true ∧
    (AcceptPendingSyncCheckpoint c4World2
        (ProcessSyncCheckpoint c4World1 c4State c4Msg).2).1 = false ∧
    (AcceptPendingSyncCheckpoint c4World2
        (ProcessSyncCheckpoint c4World1 c4State c4Msg).2).2.hashSyncCheckpoint = 2 := by
  decide

/-- C4 amended: a verified message whose target is unknown to the block
index or not an active-chain member is deferred (pending set to the target
and the message, active hash unchanged); once the target is known and
active-chain resident, the next promotion call accepts it — writing it as
active and clearing pending — provided validation against the then-current
active checkpoint answers apply and the durable write succeeds. -/
theorem claim_c4_deferral :
    (∀ (w : World) (st : CheckpointState) (m : CSyncCheckpoint),
      w.checkSigOk m = true →
      (∀ p, bLookup w.blockIndex m.hashCheckpoint = some p → chainContains w p = false) →
      ProcessSyncCheckpoint w st m =
        (false, { st with hashPendingCheckpoint := m.hashCheckpoint,
                          checkpointMessagePending := m })) ∧
    (∀ (w : World) (st : CheckpointState) (p : CBlockIndex),
      st.hashPendingCheckpoint ≠ 0 →
      bLookup w.blockIndex st.hashPendingCheckpoint = some p →
      chainContains w p = true →
      ValidateSyncCheckpoint w st st.hashPendingCheckpoint = .acceptNew →
      w.dbWriteCheckpointOk st.hashPendingCheckpoint = true →
      AcceptPendingSyncCheckpoint w st =
        (true, { st with hashSyncCheckpoint := st.hashPendingCheckpoint,
                         hashPendingCheckpoint := 0,
                         checkpointMessage := st.checkpointMessagePending,
                         checkpointMessagePending := nullSyncCheckpoint })) := by
  constructor
  · intro w st m hsig hoff
    rcases hb : bLookup w.blockIndex m.hashCheckpoint with _ | p
    · exact process_defer_unknown w st m hsig hb
    · exact process_defer_offchain w st m p hsig hb (hoff p hb)
  · intro w st p hp hb hcont hval hdb
    exact accept_pending_accept w st p hp hb hval hcont hdb

theorem claim_c4_deferral_witness :
    ProcessSyncCheckpoint c4World1 c4State c4Msg =
      (false, { c4State with hashPendingCheckpoint := c4Msg.hashCheckpoint,
                             checkpointMessagePending := c4Msg }) ∧
    AcceptPendingSyncCheckpoint baseWorld ⟨1, 3, nullSyncCheckpoint, ⟨1, 3⟩, ""⟩ =
      (true, { hashSyncCheckpoint := 3, hashPendingCheckpoint := 0,
               checkpointMessage := ⟨1, 3⟩,
               checkpointMessagePending := nullSyncCheckpoint,
               strMasterPrivKey := "" }) :=
  ⟨claim_c4_deferral.1 c4World1 c4State c4Msg (by decide)
     (by
       intro p hp
       rw [show bLookup c4World1.blockIndex c4Msg.hashCheckpoint = none from by decide]
         at hp
       cases hp),
   claim_c4_deferral.2 baseWorld ⟨1, 3, nullSyncCheckpoint, ⟨1, 3⟩, ""⟩ cA2
     (by decide) (by decide) (by decide) (by decide) (by decide)⟩

/-- C5 fails on the code: with pending hash 4 (`cX1`) known to the block
index but not an active-chain member — so the block is not "available" in
the claim's sense — the promotion call is not a no-op: validation runs,
fails with a conflict, and pending is cleared. -/
theorem claim_c5_counterexample :
    c5State.hashPendingCheckpoint = 4 ∧
    bLookup baseWorld.blockIndex c5State.hashPendingCheckpoint = some cX1 ∧
    chainContains baseWorld cX1 = false ∧
    (AcceptPendingSyncCheckpoint baseWorld c5State).2.hashPendingCheckpoint = 0 := by
  decide

/-- C5 amended: if the pending hash is null or unknown to the block index,
promotion is a no-op leaving pending set; if it is known to the index —
regardless of active-chain membership — validation re-runs: any validation
outcome other than apply clears pending (no retry); on apply, a block not
on the active chain leaves the call a no-op with pending set, while an
on-chain block is accepted when the write succeeds and left pending (state
unchanged) when the write fails. -/
theorem claim_c5_promotion :
    (∀ (w : World) (st : CheckpointState),
      st.hashPendingCheckpoint = 0 ∨
        bLookup w.blockIndex st.hashPendingCheckpoint = none →
      AcceptPendingSyncCheckpoint w st = (false, st)) ∧
    (∀ (w : World) (st : CheckpointState) (p : CBlockIndex),
      st.hashPendingCheckpoint ≠ 0 →
      bLookup w.blockIndex st.hashPendingCheckpoint = some p →
      ValidateSyncCheckpoint w st st.hashPendingCheckpoint ≠ .acceptNew →
      AcceptPendingSyncCheckpoint w st =
        (false, { st with hashPendingCheckpoint := 0,
                          checkpointMessagePending := nullSyncCheckpoint })) ∧
    (∀ (w : World) (st : CheckpointState) (p : CBlockIndex),
      st.hashPendingCheckpoint ≠ 0 →
      bLookup w.blockIndex st.hashPendingCheckpoint = some p →
      ValidateSyncCheckpoint w st st.hashPendingCheckpoint = .acceptNew →
      chainContains w p = false →
      AcceptPendingSyncCheckpoint w st = (false, st)) ∧
    (∀ (w : World) (st : CheckpointState) (p : CBlockIndex),
      st.hashPendingCheckpoint ≠ 0 →
      bLookup w.blockIndex st.hashPendingCheckpoint = some p →
      ValidateSyncCheckpoint w st st.hashPendingCheckpoint = .acceptNew →
      chainContains w p = true →
      w.dbWriteCheckpointOk st.hashPendingCheckpoint = false →
      AcceptPendingSyncCheckpoint w st = (false, st)) ∧
    (∀ (w : World) (st : CheckpointState) (p : CBlockIndex),
      st.hashPendingCheckpoint ≠ 0 →
      bLookup w.blockIndex st.hashPendingCheckpoint = some p →
      ValidateSyncCheckpoint w st st.hashPendingCheckpoint = .acceptNew →
      chainContains w p = true →
      w.dbWriteCheckpointOk st.hashPendingCheckpoint = true →
      AcceptPendingSyncCheckpoint w st =
        (true, { st with hashSyncCheckpoint := st.hashPendingCheckpoint,
                         hashPendingCheckpoint := 0,
                         checkpointMessage := st.checkpointMessagePending,
                         checkpointMessagePending := nullSyncCheckpoint })) := by
  refine ⟨?_, ?_, ?_, ?_, ?_⟩
  · intro w st h
    rcases h with hp | hb
    · exact accept_pending_none w st hp
    · by_cases hp : st.hashPendingCheckpoint = 0
      · exact accept_pending_none w st hp
      · exact accept_pending_unknown w st hp hb
  · intro w st p hp hb hval
    exact accept_pending_validate_fail w st p hp hb (toBool_eq_false_of_ne _ hval)
  · intro w st p hp hb hval hcont
    exact accept_pending_offchain w st p hp hb hval hcont
  · intro w st p hp hb hval hcont hdb
    exact accept_pending_write_fail w st p hp hb hval hcont hdb
  · intro w st p hp hb hval hcont hdb
    exact accept_pending_accept w st p hp hb hval hcont hdb

theorem claim_c5_promotion_witness :
    AcceptPendingSyncCheckpoint baseWorld baseState = (false, baseState) ∧
    AcceptPendingSyncCheckpoint baseWorld c5State =
      (false, { c5State with hashPendingCheckpoint := 0,
                             checkpointMessagePending := nullSyncCheckpoint }) ∧
    AcceptPendingSyncCheckpoint baseWorld ⟨1, 4, nullSyncCheckpoint, ⟨1, 4⟩, ""⟩ =
      (false, ⟨1, 4, nullSyncCheckpoint, ⟨1, 4⟩, ""⟩) ∧
    AcceptPendingSyncCheckpoint noDbWorld ⟨1, 3, nullSyncCheckpoint, ⟨1, 3⟩, ""⟩ =
      (false, ⟨1, 3, nullSyncCheckpoint, ⟨1, 3⟩, ""⟩) ∧
    AcceptPendingSyncCheckpoint baseWorld ⟨2, 3, nullSyncCheckpoint, ⟨1, 3⟩, ""⟩ =
      (true, { hashSyncCheckpoint := 3, hashPendingCheckpoint := 0,
               checkpointMessage := ⟨1, 3⟩,
               checkpointMessagePending := nullSyncCheckpoint,
               strMasterPrivKey := "" }) :=
  ⟨claim_c5_promotion.1 baseWorld baseState (Or.inl (by decide)),
   claim_c5_promotion.2.1 baseWorld c5State cX1 (by decide) (by decide) (by decide),
   claim_c5_promotion.2.2.1 baseWorld ⟨1, 4, nullSyncCheckpoint, ⟨1, 4⟩, ""⟩ cX1
     (by decide) (by decide) (by decide) (by decide),
   claim_c5_promotion.2.2.2.1 noDbWorld ⟨1, 3, nullSyncCheckpoint, ⟨1, 3⟩, ""⟩ cA2
     (by decide) (by decide) (by decide) (by decide) (by decide),
   claim_c5_promotion.2.2.2.2 baseWorld ⟨2, 3, nullSyncCheckpoint, ⟨1, 3⟩, ""⟩ cA2
     (by decide) (by decide) (by decide) (by decide) (by decide)⟩

/-- On a structurally sane chain the auto-selector's walk from any start
block lands exactly on the ancestor at height `min start.nHeight (T - d)`. -/
theorem autoSelectWalk_ancAt (p : CBlockIndex) (hw : wellFormedB p = true) :
    ∀ T d, ancAt p (min p.nHeight (T - d)) = some (autoSelectWalk T d p) := by
  induction p with
  | root h ht =>
    intro T d
    simp only [wellFormedB, beq_iff_eq] at hw
    subst hw
    simp [autoSelectWalk, ancAt, nHeight_root]
  | node h ht q ih =>
    intro T d
    simp only [wellFormedB, Bool.and_eq_true, beq_iff_eq] at hw
    obtain ⟨hht, hwq⟩ := hw
    by_cases hgt : ht + d > T
    · have h1 : T - d < ht := by omega
      have h2 : min ht (T - d) = T - d := by omega
      have h3 : min q.nHeight (T - d) = T - d := by omega
      simp only [autoSelectWalk, if_pos hgt, nHeight_node, h2, ancAt,
                 if_neg (by omega : ¬ ht = T - d)]
      have hq := ih hwq T d
      rw [h3] at hq
      exact hq
    · have h2 : min ht (T - d) = ht := by omega
      simp [autoSelectWalk, if_neg hgt, nHeight_node, h2, ancAt]

/-- C9: for a well-formed chain whose tip has height `T` and any configured
depth `d`, the auto-selector returns the hash of the tip's ancestor at
height `T - d` (truncated at 0), following actual parent links. -/
theorem claim_c9_autoselect (w : World) (tip : CBlockIndex)
    (htip : w.chainTip = some tip) (hw : wellFormedB tip = true) :
    AutoSelectSyncCheckpoint w =
      (ancAt tip (tip.nHeight - w.checkpointDepth)).map CBlockIndex.hash := by
  have h := autoSelectWalk_ancAt tip hw tip.nHeight w.checkpointDepth
  rw [min_eq_right (Nat.sub_le _ _)] at h
  rw [AutoSelectSyncCheckpoint, htip, Option.map_some', h, Option.map_some']

theorem claim_c9_autoselect_witness :
    AutoSelectSyncCheckpoint { baseWorld with checkpointDepth := 2 } = some 1 :=
  (claim_c9_autoselect { baseWorld with checkpointDepth := 2 } cA2 (by decide)
    (by decide)).trans (by decide)

/-- C8: when the persisted master public key is absent or differs from the
configured key, the active checkpoint is reset to the genesis hash and the
configured key is persisted; when the persisted key equals the configured
key the call changes nothing; hence a repeated call right after a rotation
is a no-op (idempotence). -/
theorem claim_c8_key_rotation :
    (∀ (w : World) (st : CheckpointState),
      w.dbPubKey = some w.checkpointPubKey →
      CheckCheckpointPubKey w st = (true, w, st)) ∧
    (∀ (w : World) (st : CheckpointState),
      w.dbPubKey ≠ some w.checkpointPubKey →
      w.dbWriteCheckpointOk w.hashGenesisBlock = true →
      w.dbWritePubKeyOk = true →
      CheckCheckpointPubKey w st =
        (true, { w with dbPubKey := some w.checkpointPubKey },
         { st with hashSyncCheckpoint := w.hashGenesisBlock })) ∧
    (∀ (w : World) (st : CheckpointState),
      CheckCheckpointPubKey { w with dbPubKey := some w.checkpointPubKey }
          { st with hashSyncCheckpoint := w.hashGenesisBlock } =
        (true, { w with dbPubKey := some w.checkpointPubKey },
         { st with hashSyncCheckpoint := w.hashGenesisBlock })) := by
  refine ⟨?_, ?_, ?_⟩
  · intro w st hk
    simp [CheckCheckpointPubKey, hk]
  · intro w st hne hdb hpk
    rcases hk : w.dbPubKey with _ | k
    · simp [CheckCheckpointPubKey, ResetSyncCheckpoint, WriteSyncCheckpoint,
            hk, hdb, hpk]
    · have hkne : (k == w.checkpointPubKey) = false := by
        rw [beq_eq_false_iff_ne]
        rintro rfl
        exact hne hk
      simp [CheckCheckpointPubKey, ResetSyncCheckpoint, WriteSyncCheckpoint,
            hk, hkne, hdb, hpk]
  · intro w st
    simp [CheckCheckpointPubKey]

theorem claim_c8_key_rotation_witness :
    CheckCheckpointPubKey { baseWorld with dbPubKey := some "P2" } baseState =
      (true, { baseWorld with dbPubKey := some "P2" }, baseState) ∧
    CheckCheckpointPubKey baseWorld baseState =
      (true, { baseWorld with dbPubKey := some baseWorld.checkpointPubKey },
       { baseState with hashSyncCheckpoint := baseWorld.hashGenesisBlock }) :=
  ⟨claim_c8_key_rotation.1 { baseWorld with dbPubKey := some "P2" } baseState rfl,
   claim_c8_key_rotation.2.1 baseWorld baseState (by decide) (by decide) (by decide)⟩
